import Mathlib

/-!
Verification of the per-identity HTTP file store (`src/index.js`) against its
specification. JavaScript strings are embedded as `List Char`. Node stdlib
collaborators that the handlers call (`Buffer.from(·, 'base64')`, `JSON.parse`,
`nostr-tools` `verifySignature`, `path.join`, `path.extname`, filesystem
callbacks) are external to the repository and are modelled as explicit
function/outcome parameters of the handlers; everything written in `index.js`
itself is embedded directly. A JavaScript exception escaping a function is
modelled as `Except.error ()`.
-/

/-- JavaScript strings, embedded as lists of characters. -/
abbrev Str : Type := List Char

/-- Conversion from Lean string literals to the embedded string type. -/
def str (s : String) : Str := s.data

/-- `s.split(sep)` of JavaScript for a single-character separator:
`''.split('/') = ['']`, and each separator character opens a new segment. -/
def splitOnChar (sep : Char) : Str → List Str
  | [] => [[]]
  | c :: rest =>
    if c = sep then
      [] :: splitOnChar sep rest
    else
      match splitOnChar sep rest with
      | [] => [[c]]
      | s :: ss => (c :: s) :: ss

/-- `pat` occurs at the start of `s` (JavaScript `String.prototype.startsWith`,
used here only as a building block of `deleteFirst`). -/
def leadsWith : Str → Str → Bool
  | [], _ => true
  | _ :: _, [] => false
  | p :: ps, c :: cs => p == c && leadsWith ps cs

/-- `s.replace(pat, '')` of JavaScript with a string pattern: deletes the first
occurrence of `pat`, wherever it occurs, and leaves `s` unchanged when `pat`
does not occur. -/
def deleteFirst (pat : Str) : Str → Str
  | [] => []
  | c :: rest =>
    if leadsWith pat (c :: rest) then
      (c :: rest).drop pat.length
    else
      c :: deleteFirst pat rest

/-- `pat` occurs somewhere in `s` (as a contiguous substring). -/
def containsSub (pat : Str) : Str → Bool
  | [] => leadsWith pat []
  | c :: rest => leadsWith pat (c :: rest) || containsSub pat rest

/-- The scheme tag `'Nostr '` stripped from authorization headers
(`src/index.js` lines 60 and 105). -/
def nostrTag : Str := str "Nostr "

/-- `src/index.js` lines 36-39:
`isValidTargetDir = (targetDir, nostr) => { const targetSegments =
targetDir.split('/').filter(segment => segment !== ''); return
targetSegments.length === 1 && targetSegments[0] === nostr }`. -/
def isValidTargetDir (targetDir nostr : Str) : Bool :=
  let targetSegments := (splitOnChar '/' targetDir).filter (fun segment => segment != ([] : Str))
  targetSegments.length == 1 && targetSegments.headD [] == nostr

/-- `src/index.js` lines 16-27: the closed extension-to-content-type switch. -/
def getContentType (ext : Str) : Str :=
  if ext == str ".txt" then str "text/plain"
  else if ext == str ".html" then str "text/html"
  else if ext == str ".json" then str "application/json"
  else str "application/octet-stream"

/-- The decoded authorization JSON object. The handlers only ever read its
`pubkey` field; the signature and all remaining fields are opaque to the code
under verification and are bundled as `payload`, consumed solely by the
abstract `verifySignature` collaborator. -/
structure Event where
  pubkey : Str
  payload : Str
deriving DecidableEq

/-- Equality of modelled call outcomes is decidable, so concrete runs of the
handlers can be checked by evaluation. -/
instance {e a : Type} [DecidableEq e] [DecidableEq a] : DecidableEq (Except e a) :=
  fun x y =>
    match x, y with
    | .error u, .error v =>
      if h : u = v then .isTrue (by rw [h]) else .isFalse (by simp [h])
    | .error _, .ok _ => .isFalse (by simp)
    | .ok _, .error _ => .isFalse (by simp)
    | .ok u, .ok v =>
      if h : u = v then .isTrue (by rw [h]) else .isFalse (by simp [h])

/-- Response headers: header name to list of values (`res.setHeader` with a
string value contributes a singleton list, an array value its elements). -/
abbrev Headers : Type := List (Str × List Str)

/-- `src/index.js` lines 46-50: `setCorsHeaders` sets the three
`Access-Control-Allow-*` headers on the response. -/
def setCorsHeaders (res : Headers) : Headers :=
  res ++ [(str "Access-Control-Allow-Origin", [str "*"]),
          (str "Access-Control-Allow-Methods", [str "GET, PUT, OPTIONS"]),
          (str "Access-Control-Allow-Headers", [str "Content-Type, Authorization"])]

/-- Result of an OPTIONS request: status and the headers passed to
`res.writeHead`. -/
structure OptionsResponse where
  status : Nat
  headers : Headers
deriving DecidableEq

/-- `src/index.js` lines 81-92: `handleOptions` builds the object
`{ origin: 'https://example.com', methods: ['GET', 'PUT'], allowedHeaders:
['Content-Type'] }` and passes it to `res.writeHead(204, corsOptions)`, whose
second argument is a raw header map: the object keys become header names. It
does not call `setCorsHeaders`. -/
def handleOptions : OptionsResponse :=
  ⟨204, [(str "origin", [str "https://example.com"]),
         (str "methods", [str "GET", str "PUT"]),
         (str "allowedHeaders", [str "Content-Type"])]⟩

/-- `src/index.js` lines 58-73: `isValidAuthorizationHeader`. The Node
collaborators are parameters: `decode` is `Buffer.from(·, 'base64').toString('utf-8')`
(total: Node skips invalid base64 characters and never throws), `parse` is
`JSON.parse` (`none` models a thrown `SyntaxError`), `verif` is `nostr-tools`
`verifySignature`. Returns `.error ()` when an exception escapes to the caller,
`.ok (some pk)` for `return event.pubkey`, and `.ok none` for the implicit
`return undefined` when verification fails. -/
def isValidAuthorizationHeader (decode : Str → Str) (parse : Str → Option Event)
    (verif : Event → Bool) (authorization : Str) : Except Unit (Option Str) :=
  let base64String := deleteFirst nostrTag authorization
  let decodedString := decode base64String
  match parse decodedString with
  | none => .error ()
  | some event =>
    if verif event then .ok (some event.pubkey) else .ok none

/-- The request headers as `handlePut` reads them: only the `authorization`
entry is consulted; `none` models an absent header (property value
`undefined`). -/
structure ReqHeaders where
  authorization : Option Str
deriving DecidableEq

/-- Observable outcome of a PUT request: the status code and body sent, whether
a write stream was opened at the target path (`fs.createWriteStream` creates or
truncates the file), and the on-disk path the handler computed (`none` when the
handler stopped before line 149 of `src/index.js`). -/
structure PutResponse where
  status : Nat
  body : Str
  fileCreated : Bool
  target : Option Str
deriving DecidableEq

/-- Body of the 401 response (`src/index.js` line 115). -/
def unauthorizedBody : Str :=
  str "Unauthorized: \"nostr\" header must be a 32 character lowercase hex string"

/-- Body of the first 403 response (`src/index.js` line 127). -/
def wrongPubkeyBody : Str := str "Forbidden: wrong pubkey"

/-- Body of the second 403 response (`src/index.js` line 140). -/
def invalidDirBody : Str := str "Forbidden: Target directory structure is invalid"

/-- Body of the 500 response on directory-creation failure (line 156). -/
def errorDirBody : Str := str "Error creating directory"

/-- Body of the 500 response on a write-stream error (line 172). -/
def errorWriteBody : Str := str "Error writing file"

/-- Body of the 201 response (line 166). -/
def fileCreatedBody : Str := str "File created"

/-- The `'.'` first argument of `path.join('.', rootDir, pathname)`. -/
def dotStr : Str := str "."

/-- `src/index.js` lines 104-177: `handlePut`. Collaborator parameters:
`decode`, `parse`, `verif` as in `isValidAuthorizationHeader`; `pjoin` is
`path.join` on its three arguments; `mkdirFails` is whether the recursive
`fs.mkdir` of line 152 reports an error; `streamFails` is whether the write
stream of line 162 emits `error` instead of `finish`. Line 105
(`headers.authorization.replace('Nostr ', '')`) throws a `TypeError` when the
header is absent, modelled by `.error ()`; an exception thrown inside
`isValidAuthorizationHeader` likewise propagates. The JavaScript truthiness
test `!nostr || !pubkey` holds when the string is `undefined` or empty. -/
def handlePut (decode : Str → Str) (parse : Str → Option Event) (verif : Event → Bool)
    (pjoin : Str → Str → Str → Str) (mkdirFails streamFails : Bool)
    (headers : ReqHeaders) (targetDir rootDir pathname : Str) :
    Except Unit PutResponse :=
  match headers.authorization with
  | none => .error ()
  | some auth =>
    let nostr := deleteFirst nostrTag auth
    match isValidAuthorizationHeader decode parse verif auth with
    | .error () => .error ()
    | .ok pubkeyOpt =>
      let pubkeyFalsy := match pubkeyOpt with
        | none => true
        | some pk => pk == ([] : Str)
      if nostr == ([] : Str) || pubkeyFalsy then
        .ok ⟨401, unauthorizedBody, false, none⟩
      else
        let pubkey := pubkeyOpt.getD []
        if targetDir != pubkey then
          .ok ⟨403, wrongPubkeyBody, false, none⟩
        else if !(isValidTargetDir targetDir pubkey) then
          .ok ⟨403, invalidDirBody, false, none⟩
        else
          let targetPath := pjoin dotStr rootDir pathname
          if mkdirFails then
            .ok ⟨500, errorDirBody, false, some targetPath⟩
          else if streamFails then
            .ok ⟨500, errorWriteBody, true, some targetPath⟩
          else
            .ok ⟨201, fileCreatedBody, true, some targetPath⟩

/-- Observable outcome of a GET request: status, body, and the content-type
header value (`none` when the 404 branch sets no content type). -/
structure GetResponse where
  status : Nat
  body : Str
  contentType : Option Str
deriving DecidableEq

/-- `src/index.js` lines 186-203: `handleGet`. `pjoin` is `path.join`,
`extnameF` is `path.extname`, and `readResult` is the outcome of
`fs.readFile` (`none` when the callback receives an error, `some data`
otherwise). -/
def handleGet (pjoin : Str → Str → Str → Str) (extnameF : Str → Str)
    (readResult : Option Str) (pathname rootDir : Str) : GetResponse :=
  let targetPath := pjoin dotStr rootDir pathname
  match readResult with
  | none => ⟨404, str "File not found", none⟩
  | some data => ⟨200, data, some (getContentType (extnameF targetPath))⟩

/-! ## Helper lemmas -/

/-- The namespace authorizer accepts exactly when filtering the split path
leaves the single segment equal to the identity. -/
theorem isValidTargetDir_iff (td pk : Str) :
    isValidTargetDir td pk = true ↔
      (splitOnChar '/' td).filter (fun s => s != ([] : Str)) = [pk] := by
  simp only [isValidTargetDir]
  cases h : (splitOnChar '/' td).filter (fun s => s != ([] : Str)) with
  | nil => simp
  | cons a t =>
    cases t with
    | nil => simp [List.headD]
    | cons b t2 => simp [List.headD]

/-- A successful authorization forces a non-empty identity, because empty
segments are filtered out before the comparison. -/
theorem isValidTargetDir_pubkey_ne_nil (td pk : Str)
    (h : isValidTargetDir td pk = true) : pk ≠ ([] : Str) := by
  rw [isValidTargetDir_iff] at h
  intro hnil
  have hmem : pk ∈ (splitOnChar '/' td).filter (fun s => s != ([] : Str)) := by
    rw [h]; exact List.mem_singleton.mpr rfl
  have := List.of_mem_filter hmem
  subst hnil
  simp at this

/-- `replace(pat, '')` is the identity when `pat` does not occur. -/
theorem deleteFirst_of_not_contains (pat s : Str)
    (h : containsSub pat s = false) : deleteFirst pat s = s := by
  induction s with
  | nil => rfl
  | cons c rest ih =>
    simp only [containsSub, Bool.or_eq_false_iff] at h
    simp only [deleteFirst, h.1, Bool.false_eq_true, if_false]
    rw [ih h.2]


/-- Splitting a string that does not contain the separator yields the whole
string as the single segment. -/
theorem splitOnChar_no_sep (sep : Char) (s : Str) (h : sep ∉ s) :
    splitOnChar sep s = [s] := by
  induction s with
  | nil => rfl
  | cons c rest ih =>
    simp only [List.mem_cons, not_or] at h
    simp only [splitOnChar]
    rw [if_neg (fun hc => h.1 hc.symm), ih h.2]


/-! ## Claim theorems -/

/-- C1: for every target-directory string `P` and identity string `I`,
`isValidTargetDir P I` returns true iff splitting `P` on `'/'` and discarding
empty segments yields exactly the one segment `I` (case-sensitive equality of
character lists); in particular it returns false whenever the filtered segment
list is empty or has two or more entries, regardless of `I`. -/
theorem c1_authorizer_single_segment_iff (P I : Str) :
    (isValidTargetDir P I = true ↔
      (splitOnChar '/' P).filter (fun s => s != ([] : Str)) = [I]) ∧
    ((splitOnChar '/' P).filter (fun s => s != ([] : Str)) = [] ∨
        2 ≤ ((splitOnChar '/' P).filter (fun s => s != ([] : Str))).length →
      isValidTargetDir P I = false) := by
  refine ⟨isValidTargetDir_iff P I, ?_⟩
  intro hcase
  cases hv : isValidTargetDir P I with
  | false => rfl
  | true =>
    exfalso
    have h := (isValidTargetDir_iff P I).mp hv
    cases hcase with
    | inl h0 => rw [h] at h0; exact List.cons_ne_nil I [] h0
    | inr h2 => rw [h] at h2; simp at h2

/-- Witness for C1 at the concrete inputs `P = "a/b"`, `I = "a"`: the path has
two non-empty segments and the authorizer rejects it. -/
theorem c1_authorizer_single_segment_iff_witness :
    2 ≤ ((splitOnChar '/' (str "a/b")).filter (fun s => s != ([] : Str))).length ∧
    isValidTargetDir (str "a/b") (str "a") = false :=
  ⟨by decide, (c1_authorizer_single_segment_iff (str "a/b") (str "a")).2 (Or.inr (by decide))⟩

/-- C9 counterexample: with the non-empty identity `P = "abc"` and target
directory `D = "/abc"`, the authorizer `isValidTargetDir D P` returns true yet
`D` is not equal to `P`, so the claimed equivalence between the direct equality
check and the authorizer is false at this input. -/
theorem c9_checks_equivalence_counterexample :
    str "abc" ≠ ([] : Str) ∧
    isValidTargetDir (str "/abc") (str "abc") = true ∧
    str "/abc" ≠ str "abc" := by
  refine ⟨by decide, by decide, by decide⟩

/-- C9 (amended): the equivalence holds in one direction only. For every
identity `P` that is non-empty and contains no `'/'` character, `D = P` implies
`isValidTargetDir D P = true`, so once the first 403 check (`targetDir !==
pubkey`) has passed, the second 403 branch ("Target directory structure is
invalid") can never fire. The converse fails (`isValidTargetDir "/abc" "abc"`
is true although `"/abc" ≠ "abc"`), so the two checks are not extensionally
equal predicates: the second is merely redundant after the first. -/
theorem c9_second_check_redundant_after_first (P D : Str)
    (hne : P ≠ ([] : Str)) (hslash : '/' ∉ P) (heq : D = P) :
    isValidTargetDir D P = true := by
  subst heq
  rw [isValidTargetDir_iff, splitOnChar_no_sep '/' _ hslash]
  simp [hne]

/-- Witness for C9 (amended) at `P = D = "abc"`. -/
theorem c9_second_check_redundant_after_first_witness :
    str "abc" ≠ ([] : Str) ∧ '/' ∉ str "abc" ∧
    isValidTargetDir (str "abc") (str "abc") = true :=
  ⟨by decide, by decide,
    c9_second_check_redundant_after_first (str "abc") (str "abc")
      (by decide) (by decide) rfl⟩

/-- C4 evidence: the verifier is not exception-safe. At the concrete credential
`"Nostr !!!"` — whose post-tag content `"!!!"` base64-decodes (Node skips the
invalid characters) to the empty string, on which `JSON.parse` throws a
`SyntaxError` — `isValidAuthorizationHeader` propagates the exception to its
caller instead of returning "no identity": there is no try/catch in
`src/index.js` lines 58-73. -/
theorem c4_verifier_throws_on_invalid_json :
    isValidAuthorizationHeader
      (fun s => if s == str "!!!" then ([] : Str) else s)
      (fun s => if s == ([] : Str) then none else some ⟨s, []⟩)
      (fun _ => false)
      (str "Nostr !!!") = .error () := by decide

/-- C5 evidence: a PUT whose headers carry no `authorization` entry makes
line 105 of `src/index.js` (`headers.authorization.replace('Nostr ', '')`)
throw a `TypeError` on `undefined`, so the handler never reaches the 401
response the claim (and the `!nostr` guard of line 112) intend. -/
theorem c5_put_without_header_throws :
    handlePut (fun s => s) (fun _ => (none : Option Event)) (fun _ => false)
      (fun _ _ p => p) false false ⟨none⟩ (str "abc") (str "data") (str "/abc")
      = .error () := by decide

/-- C8 evidence: `handleOptions` responds 204 but never calls `setCorsHeaders`;
it passes the middleware-style options object to `res.writeHead`, so the
response carries the literal headers `origin`, `methods`, `allowedHeaders` and
none of the three `Access-Control-Allow-*` headers — which is exactly what
`setCorsHeaders` (dead code here) would have produced. -/
theorem c8_options_response_lacks_cors_headers :
    handleOptions.status = 204 ∧
    handleOptions.headers.lookup (str "Access-Control-Allow-Origin") = none ∧
    handleOptions.headers.lookup (str "Access-Control-Allow-Methods") = none ∧
    handleOptions.headers.lookup (str "Access-Control-Allow-Headers") = none ∧
    handleOptions.headers.lookup (str "origin") = some [str "https://example.com"] ∧
    setCorsHeaders [] =
      [(str "Access-Control-Allow-Origin", [str "*"]),
       (str "Access-Control-Allow-Methods", [str "GET, PUT, OPTIONS"]),
       (str "Access-Control-Allow-Headers", [str "Content-Type, Authorization"])] := by
  refine ⟨rfl, by decide, by decide, by decide, by decide, rfl⟩

/-- C10: the verifier does not require the `'Nostr '` scheme tag: `replace`
deletes only the first occurrence of the tag wherever it occurs, and leaves a
tag-free credential unchanged, so a bare credential that decodes, parses and
verifies still yields the asserted public key. The second conjunct shows on a
concrete string that only the first of two occurrences is deleted, and from a
mid-string position. -/
theorem c10_scheme_tag_not_required (decode : Str → Str) (parse : Str → Option Event)
    (verif : Event → Bool) (auth : Str) (e : Event)
    (hno : containsSub nostrTag auth = false)
    (hparse : parse (decode auth) = some e) (hverif : verif e = true) :
    isValidAuthorizationHeader decode parse verif auth = .ok (some e.pubkey) ∧
    deleteFirst nostrTag (str "xxNostr yyNostr zz") = str "xxyyNostr zz" := by
  constructor
  · simp only [isValidAuthorizationHeader, deleteFirst_of_not_contains _ _ hno,
      hparse, hverif, if_true]
  · decide

/-- Witness for C10: the credential `"QUJD"` (plain base64, no scheme tag)
authenticates as `"abc123"` when its decoded bytes parse and verify. -/
theorem c10_scheme_tag_not_required_witness :
    containsSub nostrTag (str "QUJD") = false ∧
    isValidAuthorizationHeader (fun s => s)
      (fun s => if s == ([] : Str) then none else some ⟨str "abc123", s⟩)
      (fun _ => true) (str "QUJD") = .ok (some (str "abc123")) :=
  ⟨by decide,
    (c10_scheme_tag_not_required (fun s => s)
      (fun s => if s == ([] : Str) then none else some ⟨str "abc123", s⟩)
      (fun _ => true) (str "QUJD") ⟨str "abc123", str "QUJD"⟩
      (by decide) (by decide) rfl).1⟩

/-- C2: a PUT whose authorization header decodes and parses to a structured
assertion (`parse` succeeds on the decoded credential) but whose signature
fails verification is answered with the 401 response — the verifier returns
`undefined`, the `!pubkey` truthiness guard of line 112 fires — and therefore
never with 403 or 201; no write stream is opened. -/
theorem c2_bad_signature_put_401 (decode : Str → Str) (parse : Str → Option Event)
    (verif : Event → Bool) (pjoin : Str → Str → Str → Str)
    (mkdirFails streamFails : Bool) (auth targetDir rootDir pathname : Str)
    (e : Event)
    (hparse : parse (decode (deleteFirst nostrTag auth)) = some e)
    (hverif : verif e = false) :
    handlePut decode parse verif pjoin mkdirFails streamFails ⟨some auth⟩
      targetDir rootDir pathname = .ok ⟨401, unauthorizedBody, false, none⟩ := by
  simp only [handlePut, isValidAuthorizationHeader, hparse, hverif,
    Bool.false_eq_true, if_false, Bool.or_true, if_true]

/-- Witness for C2: a concrete credential that parses but fails verification is
answered 401. -/
theorem c2_bad_signature_put_401_witness :
    handlePut (fun s => s) (fun s => some ⟨str "abc", s⟩) (fun _ => false)
      (fun _ _ p => p) false false ⟨some (str "QUJD")⟩ (str "abc") (str "data")
      (str "/abc") = .ok ⟨401, unauthorizedBody, false, none⟩ :=
  c2_bad_signature_put_401 (fun s => s) (fun s => some ⟨str "abc", s⟩)
    (fun _ => false) (fun _ _ p => p) false false (str "QUJD") (str "abc")
    (str "data") (str "/abc") ⟨str "abc", str "QUJD"⟩ rfl rfl

/-- C3: a PUT carrying a valid signed assertion for identity `A = e.pubkey`
(the decoded credential parses, verifies, and — as real Schnorr verification
only accepts 64-hex-character keys — carries a non-empty public key; the Node
facts `Buffer.from('', 'base64') = ''` and `JSON.parse('') throws` are the
`hdec`/`hpnil` hypotheses) whose target directory differs from `A` is answered
with the first 403 response ("wrong pubkey"), and no directory or file is
touched: `fileCreated = false` and no on-disk path is computed. -/
theorem c3_wrong_identity_put_403 (decode : Str → Str) (parse : Str → Option Event)
    (verif : Event → Bool) (pjoin : Str → Str → Str → Str)
    (mkdirFails streamFails : Bool) (auth targetDir rootDir pathname : Str)
    (e : Event)
    (hdec : decode ([] : Str) = ([] : Str))
    (hpnil : parse ([] : Str) = none)
    (hparse : parse (decode (deleteFirst nostrTag auth)) = some e)
    (hverif : verif e = true)
    (hpk : e.pubkey ≠ ([] : Str))
    (hne : targetDir ≠ e.pubkey) :
    handlePut decode parse verif pjoin mkdirFails streamFails ⟨some auth⟩
      targetDir rootDir pathname = .ok ⟨403, wrongPubkeyBody, false, none⟩ := by
  have hnostr : deleteFirst nostrTag auth ≠ ([] : Str) := by
    intro h0
    rw [h0, hdec, hpnil] at hparse
    exact Option.noConfusion hparse
  have h1 : (deleteFirst nostrTag auth == ([] : Str)) = false :=
    beq_eq_false_iff_ne.mpr hnostr
  have h2 : (e.pubkey == ([] : Str)) = false := beq_eq_false_iff_ne.mpr hpk
  have h3 : (targetDir != e.pubkey) = true := bne_iff_ne.mpr hne
  simp only [handlePut, isValidAuthorizationHeader, hparse, hverif, if_true,
    h1, h2, h3, Option.getD_some, Bool.or_self, Bool.false_eq_true, if_false]

/-- Witness for C3: identity `"abc"`, target directory `"xyz"`, concrete
decode/parse/verify collaborators satisfying the Node-fact hypotheses. -/
theorem c3_wrong_identity_put_403_witness :
    handlePut (fun s => s)
      (fun s => if s == ([] : Str) then none else some ⟨str "abc", s⟩)
      (fun _ => true) (fun _ _ p => p) false false ⟨some (str "QUJD")⟩
      (str "xyz") (str "data") (str "/xyz")
      = .ok ⟨403, wrongPubkeyBody, false, none⟩ :=
  c3_wrong_identity_put_403 (fun s => s)
    (fun s => if s == ([] : Str) then none else some ⟨str "abc", s⟩)
    (fun _ => true) (fun _ _ p => p) false false (str "QUJD") (str "xyz")
    (str "data") (str "/xyz") ⟨str "abc", str "QUJD"⟩
    rfl rfl (by decide) rfl (by decide) (by decide)

/-- C6: a PUT that passes authentication (`parse`/`verif` succeed on the
credential) and both authorization checks (`targetDir` equals the asserted
public key and `isValidTargetDir` accepts it) reaches the filesystem stage
with the on-disk path `path.join('.', rootDir, pathname)`, and then: a failing
recursive `fs.mkdir` yields 500 "Error creating directory" with no file
opened; otherwise the write stream is opened at that path and the handler
answers 201 "File created" on `finish` and 500 "Error writing file" on
`error`. -/
theorem c6_authorized_put_filesystem_flow (decode : Str → Str)
    (parse : Str → Option Event) (verif : Event → Bool)
    (pjoin : Str → Str → Str → Str) (mkdirFails streamFails : Bool)
    (auth targetDir rootDir pathname : Str) (e : Event)
    (hdec : decode ([] : Str) = ([] : Str))
    (hpnil : parse ([] : Str) = none)
    (hparse : parse (decode (deleteFirst nostrTag auth)) = some e)
    (hverif : verif e = true)
    (heq : targetDir = e.pubkey)
    (hvalid : isValidTargetDir targetDir e.pubkey = true) :
    handlePut decode parse verif pjoin mkdirFails streamFails ⟨some auth⟩
      targetDir rootDir pathname =
      .ok (if mkdirFails then
            ⟨500, errorDirBody, false, some (pjoin dotStr rootDir pathname)⟩
          else if streamFails then
            ⟨500, errorWriteBody, true, some (pjoin dotStr rootDir pathname)⟩
          else
            ⟨201, fileCreatedBody, true, some (pjoin dotStr rootDir pathname)⟩) := by
  have hnostr : deleteFirst nostrTag auth ≠ ([] : Str) := by
    intro h0
    rw [h0, hdec, hpnil] at hparse
    exact Option.noConfusion hparse
  have hpk : e.pubkey ≠ ([] : Str) := isValidTargetDir_pubkey_ne_nil _ _ hvalid
  have h1 : (deleteFirst nostrTag auth == ([] : Str)) = false :=
    beq_eq_false_iff_ne.mpr hnostr
  have h2 : (e.pubkey == ([] : Str)) = false := beq_eq_false_iff_ne.mpr hpk
  have h3 : (targetDir != e.pubkey) = false := by
    rw [bne_eq_false_iff_eq]; exact heq
  simp only [handlePut, isValidAuthorizationHeader, hparse, hverif, if_true,
    h1, h2, h3, Option.getD_some, hvalid, Bool.or_self, Bool.not_true,
    Bool.false_eq_true, if_false]
  cases mkdirFails <;> cases streamFails <;> rfl

/-- Witness for C6 at identity `"abc"` writing to `"/abc"`, with the stream
finishing successfully: the handler answers 201 and the computed path is the
join of `'.'`, the root and the request path. -/
theorem c6_authorized_put_filesystem_flow_witness :
    handlePut (fun s => s)
      (fun s => if s == ([] : Str) then none else some ⟨str "abc", s⟩)
      (fun _ => true) (fun _ _ p => p) false false ⟨some (str "QUJD")⟩
      (str "abc") (str "data") (str "/abc")
      = .ok ⟨201, fileCreatedBody, true, some (str "/abc")⟩ := by
  have h := c6_authorized_put_filesystem_flow (fun s => s)
    (fun s => if s == ([] : Str) then none else some ⟨str "abc", s⟩)
    (fun _ => true) (fun _ _ p => p) false false (str "QUJD") (str "abc")
    (str "data") (str "/abc") ⟨str "abc", str "QUJD"⟩
    rfl rfl (by decide) rfl rfl (by decide)
  simpa using h

/-- C7: `handleGet` answers 404 "File not found" whenever `fs.readFile`
reports an error (missing or unreadable file) — the error is consumed by the
callback, nothing is thrown — and otherwise answers 200 with exactly the read
bytes and a content type computed by `getContentType` from the extension of
the joined path alone, via the closed mapping `.txt`, `.html`, `.json`, with
every other extension falling to `application/octet-stream`. -/
theorem c7_get_flow (pjoin : Str → Str → Str → Str) (extnameF : Str → Str)
    (pathname rootDir fileData : Str) :
    handleGet pjoin extnameF none pathname rootDir
      = ⟨404, str "File not found", none⟩ ∧
    handleGet pjoin extnameF (some fileData) pathname rootDir
      = ⟨200, fileData,
          some (getContentType (extnameF (pjoin dotStr rootDir pathname)))⟩ ∧
    getContentType (str ".txt") = str "text/plain" ∧
    getContentType (str ".html") = str "text/html" ∧
    getContentType (str ".json") = str "application/json" ∧
    (∀ ext : Str, ext ≠ str ".txt" → ext ≠ str ".html" → ext ≠ str ".json" →
      getContentType ext = str "application/octet-stream") := by
  refine ⟨rfl, rfl, by decide, by decide, by decide, ?_⟩
  intro ext h1 h2 h3
  simp only [getContentType, beq_eq_false_iff_ne.mpr h1,
    beq_eq_false_iff_ne.mpr h2, beq_eq_false_iff_ne.mpr h3,
    Bool.false_eq_true, if_false]

/-- Witness for C7: a missing file yields 404; a present file at a `.png`
path yields 200 with content type `application/octet-stream`. -/
theorem c7_get_flow_witness :
    handleGet (fun _ _ p => p) (fun _ => str ".png") none (str "/abc")
      (str "data") = ⟨404, str "File not found", none⟩ ∧
    getContentType (str ".png") = str "application/octet-stream" :=
  ⟨(c7_get_flow (fun _ _ p => p) (fun _ => str ".png") (str "/abc")
      (str "data") (str "hello")).1,
    (c7_get_flow (fun _ _ p => p) (fun _ => str ".png") (str "/abc")
      (str "data") (str "hello")).2.2.2.2.2 (str ".png")
      (by decide) (by decide) (by decide)⟩
